import Mathlib

set_option maxRecDepth 16384

/-!
A shallow embedding of `src/main.py` (a rule-based chat backend).

Python strings are modelled as `List Char`; a Python string method is
translated to an explicitly defined Lean function with the same behaviour
(ASCII case mapping is used for `str.lower` / `str.capitalize`, which is
exact on every string the program's rules compare against).  The one
clock-reading branch of `generate_reply` receives the formatted wall-clock
string as an explicit argument `now`.  The one expression of
`generate_reply` that can raise (`message.split(" ", 1)[1]`, an
`IndexError` when `message` has no space) is modelled with `Option`, so
`generate_reply` returns `none` exactly when the Python would raise.
-/

/-- Convert a Lean string literal to the `List Char` model of Python strings. -/
def lit (s : String) : List Char := s.toList

/-- ASCII lower-casing of one character, as `str.lower` acts on ASCII. -/
def lowerChar : Char → Char
  | 'A' => 'a' | 'B' => 'b' | 'C' => 'c' | 'D' => 'd' | 'E' => 'e'
  | 'F' => 'f' | 'G' => 'g' | 'H' => 'h' | 'I' => 'i' | 'J' => 'j'
  | 'K' => 'k' | 'L' => 'l' | 'M' => 'm' | 'N' => 'n' | 'O' => 'o'
  | 'P' => 'p' | 'Q' => 'q' | 'R' => 'r' | 'S' => 's' | 'T' => 't'
  | 'U' => 'u' | 'V' => 'v' | 'W' => 'w' | 'X' => 'x' | 'Y' => 'y'
  | 'Z' => 'z'
  | c => c

/-- ASCII upper-casing of one character, as `str.upper` acts on ASCII. -/
def upperChar : Char → Char
  | 'a' => 'A' | 'b' => 'B' | 'c' => 'C' | 'd' => 'D' | 'e' => 'E'
  | 'f' => 'F' | 'g' => 'G' | 'h' => 'H' | 'i' => 'I' | 'j' => 'J'
  | 'k' => 'K' | 'l' => 'L' | 'm' => 'M' | 'n' => 'N' | 'o' => 'O'
  | 'p' => 'P' | 'q' => 'Q' | 'r' => 'R' | 's' => 'S' | 't' => 'T'
  | 'u' => 'U' | 'v' => 'V' | 'w' => 'W' | 'x' => 'X' | 'y' => 'Y'
  | 'z' => 'Z'
  | c => c

/-- Python `s.lower()`. -/
def pyLower (l : List Char) : List Char := l.map lowerChar

/-- Python `s.strip()`: remove leading and trailing whitespace. -/
def pyStrip (l : List Char) : List Char :=
  ((l.dropWhile Char.isWhitespace).reverse.dropWhile Char.isWhitespace).reverse

/-- Python `pat in s` restricted to "pat is a prefix of s"; building block
of `containsSub`. -/
def startsWithL : List Char → List Char → Bool
  | [], _ => true
  | _ :: _, [] => false
  | a :: as, b :: bs => a == b && startsWithL as bs

/-- Python `pat in s`: `pat` occurs as a contiguous substring of `s`. -/
def containsSub (pat : List Char) : List Char → Bool
  | [] => startsWithL pat []
  | b :: bs => startsWithL pat (b :: bs) || containsSub pat bs

/-- Python `s.split(c)` for a one-character separator `c`. -/
def splitOnChar (c : Char) : List Char → List (List Char)
  | [] => [[]]
  | a :: t =>
    if a == c then [] :: splitOnChar c t
    else
      match splitOnChar c t with
      | [] => [[a]]
      | h :: r => (a :: h) :: r

/-- Python `s.capitalize()`: first character upper-cased, the rest lower-cased. -/
def pyCapitalize : List Char → List Char
  | [] => []
  | c :: t => upperChar c :: t.map lowerChar

/-- Python `s.split(" ", 1)[1]`: the text after the first space, or `none`
(an `IndexError` in Python) when `s` has no space. -/
def afterFirstSpace : List Char → Option (List Char)
  | [] => none
  | c :: t => if c == ' ' then some t else afterFirstSpace t

/-- Python `"; ".join(l)`. -/
def joinSemi : List (List Char) → List Char
  | [] => []
  | [s] => s
  | s :: t => s ++ lit "; " ++ joinSemi t

/-- The `role` field of `ChatMessage` (`src/main.py` line 19). -/
inductive Role where
  | user
  | assistant
  | system
deriving DecidableEq

/-- `ChatMessage` (`src/main.py` lines 18-20). -/
structure ChatMessage where
  role : Role
  content : List Char
deriving DecidableEq

/-- `message.strip().lower()` (`src/main.py` line 34). -/
def normText (message : List Char) : List Char := pyLower (pyStrip message)

/-- Rule 2's test: `any(greet in text for greet in ["hello", "hi", "hey"])`. -/
def rule_greet (text : List Char) : Bool :=
  containsSub (lit "hello") text || containsSub (lit "hi") text ||
    containsSub (lit "hey") text

/-- Rule 3's test: `"your name" in text or "who are you" in text`. -/
def rule_identity (text : List Char) : Bool :=
  containsSub (lit "your name") text || containsSub (lit "who are you") text

/-- Rule 4's test: `"help" in text`. -/
def rule_help (text : List Char) : Bool :=
  containsSub (lit "help") text

/-- Rule 5's test: `"time" in text and "?" in text`. -/
def rule_time (text : List Char) : Bool :=
  containsSub (lit "time") text && containsSub (lit "?") text

/-- Rule 6's test: `text.startswith("summarize ")`. -/
def rule_summarize (text : List Char) : Bool :=
  startsWithL (lit "summarize ") text

/-- Rule 7's test: `text.startswith("rewrite ") or text.startswith("paraphrase ")`. -/
def rule_rewrite (text : List Char) : Bool :=
  startsWithL (lit "rewrite ") text || startsWithL (lit "paraphrase ") text

/-- Rule 8's test: `"haiku" in text`. -/
def rule_haiku (text : List Char) : Bool :=
  containsSub (lit "haiku") text

/-- Rule 9's test: `any(x in text for x in ["joke", "funny"])`. -/
def rule_joke (text : List Char) : Bool :=
  containsSub (lit "joke") text || containsSub (lit "funny") text

/-- The fixed greeting reply (`src/main.py` line 38). -/
def greeting : List Char :=
  lit "Hi! I'm your helpful AI. Ask me anything or try: 'summarize this text', 'write a haiku about the ocean', or 'explain JWTs like I'm five'."

/-- The fixed identity reply (`src/main.py` line 40). -/
def identityReply : List Char :=
  lit "I'm an on-device AI assistant built for this demo. No external services required!"

/-- The fixed capability reply (`src/main.py` line 42). -/
def helpReply : List Char :=
  lit "I can answer questions, brainstorm ideas, rewrite text, draft emails, and more. What would you like to do?"

/-- The reply when the summarize body is shorter than 10 characters
(`src/main.py` line 51). -/
def summarizeShort : List Char :=
  lit "Please paste some text after 'summarize' for me to condense."

/-- The fixed haiku reply (`src/main.py` line 64). -/
def haikuReply : List Char :=
  lit "Ocean whispers soft\nSilver tides kiss moonlit sands\nDreams drift with the stars"

/-- The fixed joke reply (`src/main.py` line 67). -/
def jokeReply : List Char :=
  lit "Why did the developer go broke? Because they used up all their cache."

/-- `sentences` of the summarize branch (`src/main.py` line 52): newlines
replaced by spaces, split on periods, fragments trimmed, empties dropped. -/
def sentencesOf (body : List Char) : List (List Char) :=
  ((splitOnChar '.' (body.map fun c => if c == '\n' then ' ' else c)).map
    pyStrip).filter fun s => !s.isEmpty

/-- The summarize reply for a long-enough body (`src/main.py` lines 53-57). -/
def summaryReply (body : List Char) : List Char :=
  lit "Summary: " ++ joinSemi ((sentencesOf body).take 3) ++
    (if 3 < (sentencesOf body).length then lit "..." else [])

/-- Everything of the rule-10 reply before the echoed new message
(`src/main.py` lines 74-77). -/
def followUpHeader (lastU : List Char) : List Char :=
  lit "Following up on our chat: you previously asked '" ++
    lastU.take 120 ++
    (if 120 < lastU.length then lit "..." else []) ++
    lit "'. Now, about your new message — here's my best take: "

/-- The rule-10 reply (`src/main.py` lines 73-79). -/
def followUpReply (lastU message : List Char) : List Char :=
  followUpHeader lastU ++ message

/-- The default reply (`src/main.py` lines 82-87). -/
def defaultReply (message : List Char) : List Char :=
  lit "Here's a thoughtful response: I understand you're asking about '" ++
    (pyStrip message).take 140 ++
    (if 140 < (pyStrip message).length then lit "..." else []) ++
    lit "'. I can provide explanations, examples, or step-by-step guidance — just tell me the depth you want."

/-- `next((m.content for m in reversed(history) if m.role == "user"), None)`
(`src/main.py` line 71). -/
def lastUser (history : List ChatMessage) : Option (List Char) :=
  (history.reverse.find? fun m => decide (m.role = Role.user)).map
    ChatMessage.content

/-- `generate_reply` (`src/main.py` lines 32-87).  `now` is the formatted
wall-clock string read in the time branch; the result is `none` exactly when
the Python code would raise. -/
def generate_reply (message : List Char) (history : Option (List ChatMessage))
    (now : List Char) : Option (List Char) :=
  if rule_greet (normText message) then some greeting
  else if rule_identity (normText message) then some identityReply
  else if rule_help (normText message) then some helpReply
  else if rule_time (normText message) then some (lit "It's " ++ now)
  else if rule_summarize (normText message) then
    if (pyStrip (message.drop 10)).length < 10 then some summarizeShort
    else some (summaryReply (pyStrip (message.drop 10)))
  else if rule_rewrite (normText message) then
    match afterFirstSpace message with
    | none => none
    | some body => some (lit "Here's a clearer version: " ++ pyCapitalize body)
  else if rule_haiku (normText message) then some haikuReply
  else if rule_joke (normText message) then some jokeReply
  else
    match history with
    | none => some (defaultReply message)
    | some h =>
      if h.isEmpty then some (defaultReply message)
      else
        match lastUser h with
        | none => some (defaultReply message)
        | some lu =>
          if !lu.isEmpty && lu != message then some (followUpReply lu message)
          else some (defaultReply message)

/-- `time_rule_fires message` holds exactly when the call reads the clock:
rules 2-4 fail and rule 5's test succeeds. -/
def time_rule_fires (message : List Char) : Bool :=
  !rule_greet (normText message) && !rule_identity (normText message) &&
    !rule_help (normText message) && rule_time (normText message)

/-- `history_reflects message history` holds exactly when rule 10's branch
produces the follow-up reply (`src/main.py` lines 70-79): the history is
present and non-empty, it has a user entry, and the most recent user
content is non-empty and differs from the message. -/
def history_reflects (message : List Char) : Option (List ChatMessage) → Bool
  | none => false
  | some h =>
    if h.isEmpty then false
    else
      match lastUser h with
      | none => false
      | some lu => !lu.isEmpty && lu != message

lemma mem_of_startsWithL {p l : List Char} (h : startsWithL p l = true) :
    ∀ c ∈ p, c ∈ l := by
  induction p generalizing l with
  | nil => intro c hc; cases hc
  | cons a as ih =>
    cases l with
    | nil => simp [startsWithL] at h
    | cons b bs =>
      simp only [startsWithL, Bool.and_eq_true, beq_iff_eq] at h
      intro c hc
      rcases List.mem_cons.mp hc with rfl | hc
      · rw [h.1]; exact List.mem_cons_self b bs
      · exact List.mem_cons_of_mem _ (ih h.2 c hc)

lemma lowerChar_eq_space {d : Char} (h : lowerChar d = ' ') : d = ' ' := by
  unfold lowerChar at h
  split at h <;> first
    | exact h
    | exact absurd h (by decide)

lemma mem_of_mem_pyStrip {c : Char} {l : List Char} (h : c ∈ pyStrip l) :
    c ∈ l := by
  unfold pyStrip at h
  rw [List.mem_reverse] at h
  have h1 := (List.dropWhile_sublist _).subset h
  rw [List.mem_reverse] at h1
  exact (List.dropWhile_sublist _).subset h1

lemma afterFirstSpace_of_mem {l : List Char} (h : ' ' ∈ l) :
    ∃ t, afterFirstSpace l = some t := by
  induction l with
  | nil => cases h
  | cons c t ih =>
    by_cases hc : c = ' '
    · exact ⟨t, by simp [afterFirstSpace, hc]⟩
    · rcases List.mem_cons.mp h with h1 | hm
      · exact absurd h1.symm hc
      · rcases ih hm with ⟨u, hu⟩
        exact ⟨u, by simp [afterFirstSpace, hc, hu]⟩

lemma space_mem_of_rule_rewrite {m : List Char}
    (h : rule_rewrite (normText m) = true) : ' ' ∈ m := by
  have hsp : ' ' ∈ normText m := by
    unfold rule_rewrite at h
    rcases Bool.or_eq_true_iff.mp h with h1 | h1
    · exact mem_of_startsWithL h1 ' ' (by decide)
    · exact mem_of_startsWithL h1 ' ' (by decide)
  unfold normText pyLower at hsp
  rcases List.mem_map.mp hsp with ⟨d, hd, hld⟩
  have hde : d = ' ' := lowerChar_eq_space hld
  subst hde
  exact mem_of_mem_pyStrip hd

lemma ne_nil_append {α : Type} {l y : List α} (h : l ≠ []) : l ++ y ≠ [] := by
  cases l
  · exact absurd rfl h
  · simp

lemma summaryReply_ne_nil (body : List Char) : summaryReply body ≠ [] := by
  unfold summaryReply
  exact ne_nil_append (ne_nil_append (by decide))

lemma followUpReply_ne_nil (lu m : List Char) : followUpReply lu m ≠ [] := by
  unfold followUpReply followUpHeader
  exact ne_nil_append (ne_nil_append (ne_nil_append (ne_nil_append (by decide))))

lemma defaultReply_ne_nil (m : List Char) : defaultReply m ≠ [] := by
  unfold defaultReply
  exact ne_nil_append (ne_nil_append (ne_nil_append (by decide)))

lemma gen_some_ne_nil (message : List Char) (history : Option (List ChatMessage))
    (now : List Char) :
    ∃ r, generate_reply message history now = some r ∧ r ≠ [] := by
  unfold generate_reply
  split
  · exact ⟨greeting, rfl, by decide⟩
  split
  · exact ⟨identityReply, rfl, by decide⟩
  split
  · exact ⟨helpReply, rfl, by decide⟩
  split
  · exact ⟨_, rfl, ne_nil_append (by decide)⟩
  split
  · split
    · exact ⟨summarizeShort, rfl, by decide⟩
    · exact ⟨_, rfl, summaryReply_ne_nil _⟩
  split
  · rename_i hrw
    rcases afterFirstSpace_of_mem (space_mem_of_rule_rewrite hrw) with ⟨t, ht⟩
    rw [ht]
    exact ⟨_, rfl, ne_nil_append (by decide)⟩
  split
  · exact ⟨haikuReply, rfl, by decide⟩
  split
  · exact ⟨jokeReply, rfl, by decide⟩
  split
  · exact ⟨_, rfl, defaultReply_ne_nil _⟩
  split
  · exact ⟨_, rfl, defaultReply_ne_nil _⟩
  split
  · exact ⟨_, rfl, defaultReply_ne_nil _⟩
  split
  · exact ⟨_, rfl, followUpReply_ne_nil _ _⟩
  · exact ⟨_, rfl, defaultReply_ne_nil _⟩

/-- C1, counterexample: with history `[user "foo", user "bar"]` and message
`"bar"` (no rule 2-9 matches), the most recent user entry whose content
differs from the message is `"foo"`, so the claim demands the follow-up
reply containing `"foo"`; the code instead takes the most recent user entry
(`"bar"`), sees it equals the message, and falls through to the default
reply, which does not contain `"foo"`. -/
theorem C1_most_recent_differing_counterexample :
    generate_reply (lit "bar")
        (some [⟨Role.user, lit "foo"⟩, ⟨Role.user, lit "bar"⟩]) (lit "t") =
      some (defaultReply (lit "bar")) ∧
    containsSub (lit "foo") (defaultReply (lit "bar")) = false ∧
    defaultReply (lit "bar") ≠ followUpReply (lit "foo") (lit "bar") := by
  refine ⟨by decide, by decide, by decide⟩

/-- C1, amended: when none of rules 2-9 matches, the code takes the most
recent entry with role "user" (regardless of its content); only if that
entry exists and its content is non-empty and differs from the current
message does it return the follow-up template containing that prior content
(truncated to 120 characters with an ellipsis appended when longer) and the
new message. -/
theorem C1_follow_up_on_last_user (message : List Char) (h : List ChatMessage)
    (now lu : List Char)
    (h2 : rule_greet (normText message) = false)
    (h3 : rule_identity (normText message) = false)
    (h4 : rule_help (normText message) = false)
    (h5 : rule_time (normText message) = false)
    (h6 : rule_summarize (normText message) = false)
    (h7 : rule_rewrite (normText message) = false)
    (h8 : rule_haiku (normText message) = false)
    (h9 : rule_joke (normText message) = false)
    (hlu : lastUser h = some lu)
    (hne : lu.isEmpty = false)
    (hdiff : lu ≠ message) :
    generate_reply message (some h) now = some (followUpReply lu message) := by
  have hE : h.isEmpty = false := by
    cases h
    · simp [lastUser] at hlu
    · rfl
  simp [generate_reply, h2, h3, h4, h5, h6, h7, h8, h9, hE, hlu, hne, hdiff]

/-- C1, witness: for `history = [user "foo"]` and `message = "bar"` the
reply is the follow-up template, and it contains both `"foo"` and `"bar"`. -/
theorem C1_follow_up_on_last_user_witness :
    generate_reply (lit "bar") (some [⟨Role.user, lit "foo"⟩]) (lit "t") =
        some (followUpReply (lit "foo") (lit "bar")) ∧
    containsSub (lit "foo") (followUpReply (lit "foo") (lit "bar")) = true ∧
    containsSub (lit "bar") (followUpReply (lit "foo") (lit "bar")) = true :=
  ⟨C1_follow_up_on_last_user (lit "bar") [⟨Role.user, lit "foo"⟩] (lit "t")
      (lit "foo") (by decide) (by decide) (by decide) (by decide) (by decide)
      (by decide) (by decide) (by decide) (by decide) (by decide) (by decide),
    by decide, by decide⟩

/-- C2, counterexample: `generate_reply "rewrite hello world"` does not
return "Here's a clearer version: Hello world" — the normalized text
contains "hello", so rule 2 fires first and the fixed greeting is
returned. -/
theorem C2_rewrite_counterexample :
    generate_reply (lit "rewrite hello world") none (lit "t") = some greeting ∧
    greeting ≠ lit "Here's a clearer version: Hello world" := by
  refine ⟨by decide, by decide⟩

/-- C2, amended: for every message whose trimmed, lowercased form starts
with "rewrite " or "paraphrase " and on which none of rules 2-6 matches,
`generate_reply` returns "Here's a clearer version: " followed by the text
of the message after its first space with its first character upper-cased
and the remaining characters lower-cased. -/
theorem C2_rewrite_capitalizes (message : List Char)
    (history : Option (List ChatMessage)) (now : List Char)
    (h2 : rule_greet (normText message) = false)
    (h3 : rule_identity (normText message) = false)
    (h4 : rule_help (normText message) = false)
    (h5 : rule_time (normText message) = false)
    (h6 : rule_summarize (normText message) = false)
    (h7 : rule_rewrite (normText message) = true) :
    ∃ body, afterFirstSpace message = some body ∧
      generate_reply message history now =
        some (lit "Here's a clearer version: " ++ pyCapitalize body) := by
  rcases afterFirstSpace_of_mem (space_mem_of_rule_rewrite h7) with ⟨t, ht⟩
  refine ⟨t, ht, ?_⟩
  simp [generate_reply, h2, h3, h4, h5, h6, h7, ht]

/-- C2, witness: `generate_reply "rewrite gOODBYE world"` returns
"Here's a clearer version: Goodbye world" (rest lower-cased, as Python's
`capitalize` does). -/
theorem C2_rewrite_capitalizes_witness :
    ∃ body, afterFirstSpace (lit "rewrite gOODBYE world") = some body ∧
      generate_reply (lit "rewrite gOODBYE world") none (lit "t") =
        some (lit "Here's a clearer version: " ++ pyCapitalize body) :=
  C2_rewrite_capitalizes (lit "rewrite gOODBYE world") none (lit "t")
    (by decide) (by decide) (by decide) (by decide) (by decide) (by decide)

/-- C3, counterexample: for the message `"  summarize A. B. C. D."` (two
leading spaces) the trimmed, lowercased form starts with "summarize ", but
the code slices the body as `message[10:]`, keeping a stray "e " from the
word "summarize"; the reply is "Summary: e A; B; C...", not the claimed
"Summary: A; B; C...". -/
theorem C3_summarize_slice_counterexample :
    generate_reply (lit "  summarize A. B. C. D.") none (lit "t") =
      some (lit "Summary: e A; B; C...") ∧
    lit "Summary: e A; B; C..." ≠ lit "Summary: A; B; C..." := by
  refine ⟨by decide, by decide⟩

/-- C3, amended: for every message whose trimmed, lowercased form starts
with "summarize " and that matches none of rules 2-5, the body is the
original-case message with its first 10 characters removed and then
trimmed (equal to the text after the prefix exactly when the message has
no leading whitespace); if that body is shorter than 10 characters the
reply asks for more text, and otherwise the body (newlines replaced by
spaces) is split on periods, fragments trimmed and empty ones dropped, the
first 3 joined with "; " after "Summary: ", with "..." appended exactly
when more than 3 fragments existed. -/
theorem C3_summarize_reply (message : List Char)
    (history : Option (List ChatMessage)) (now : List Char)
    (h2 : rule_greet (normText message) = false)
    (h3 : rule_identity (normText message) = false)
    (h4 : rule_help (normText message) = false)
    (h5 : rule_time (normText message) = false)
    (h6 : rule_summarize (normText message) = true) :
    generate_reply message history now =
      some (if (pyStrip (message.drop 10)).length < 10 then summarizeShort
        else summaryReply (pyStrip (message.drop 10))) := by
  by_cases hlen : (pyStrip (message.drop 10)).length < 10 <;>
    simp [generate_reply, h2, h3, h4, h5, h6, hlen]

/-- C3, witness: `generate_reply "summarize A. B. C. D."` returns
"Summary: A; B; C..." (first 3 fragments, ellipsis since a 4th exists). -/
theorem C3_summarize_reply_witness :
    generate_reply (lit "summarize A. B. C. D.") none (lit "t") =
      some (lit "Summary: A; B; C...") := by
  have h := C3_summarize_reply (lit "summarize A. B. C. D.") none (lit "t")
    (by decide) (by decide) (by decide) (by decide) (by decide)
  rw [h]
  decide

/-- C4: for every non-empty message whose trimmed, lowercased form contains
"hello", and every history, `generate_reply` returns the one fixed greeting
string. -/
theorem C4_hello_greeting (message : List Char)
    (history : Option (List ChatMessage)) (now : List Char)
    (hne : message ≠ [])
    (h : containsSub (lit "hello") (normText message) = true) :
    generate_reply message history now = some greeting := by
  have hg : rule_greet (normText message) = true := by
    simp [rule_greet, h]
  simp [generate_reply, hg]

/-- C4, witness: `generate_reply "He said HELLO!"` (mixed case, with
history) is the greeting. -/
theorem C4_hello_greeting_witness :
    generate_reply (lit "He said HELLO!")
        (some [⟨Role.user, lit "x"⟩]) (lit "t") = some greeting :=
  C4_hello_greeting (lit "He said HELLO!") (some [⟨Role.user, lit "x"⟩])
    (lit "t") (by decide) (by decide)

/-- C5: `generate_reply` is total — for every message (the empty and
whitespace-only strings included) and every optional history it returns a
string rather than raising — and the empty and whitespace-only messages
(with history absent) reach the default rule. -/
theorem C5_total (message : List Char) (history : Option (List ChatMessage))
    (now : List Char) :
    (∃ r, generate_reply message history now = some r) ∧
    generate_reply [] none now = some (defaultReply []) ∧
    generate_reply (lit " \t\n ") none now = some (defaultReply (lit " \t\n ")) := by
  rcases gen_some_ne_nil message history now with ⟨r, hr, _⟩
  exact ⟨⟨r, hr⟩, rfl, rfl⟩

/-- C6: `generate_reply` is deterministic — two calls with identical
message and identical history on which the clock-reading rule 5 does not
fire return the same reply, whatever the two clock readings were. -/
theorem C6_deterministic (message : List Char)
    (history : Option (List ChatMessage)) (now1 now2 : List Char)
    (h : time_rule_fires message = false) :
    generate_reply message history now1 = generate_reply message history now2 := by
  unfold time_rule_fires at h
  cases h1 : rule_greet (normText message)
  · cases h2 : rule_identity (normText message)
    · cases h3 : rule_help (normText message)
      · rw [h1, h2, h3] at h
        simp only [Bool.not_false, Bool.true_and] at h
        simp [generate_reply, h1, h2, h3, h]
      · simp [generate_reply, h3]
    · simp [generate_reply, h2]
  · simp [generate_reply, h1]

/-- C6, witness: the reply to "what is the plan" is the same under two
different clock readings. -/
theorem C6_deterministic_witness :
    generate_reply (lit "what is the plan") none (lit "01:00") =
      generate_reply (lit "what is the plan") none (lit "02:00") :=
  C6_deterministic (lit "what is the plan") none (lit "01:00") (lit "02:00")
    (by decide)

/-- C7: when none of rules 2-10 matches — in particular when the history is
absent or has no qualifying user entry — `generate_reply` returns the
default acknowledgment echoing the message truncated to 140 characters,
with an ellipsis exactly when the trimmed message is longer than 140
characters. -/
theorem C7_default (message : List Char) (history : Option (List ChatMessage))
    (now : List Char)
    (h2 : rule_greet (normText message) = false)
    (h3 : rule_identity (normText message) = false)
    (h4 : rule_help (normText message) = false)
    (h5 : rule_time (normText message) = false)
    (h6 : rule_summarize (normText message) = false)
    (h7 : rule_rewrite (normText message) = false)
    (h8 : rule_haiku (normText message) = false)
    (h9 : rule_joke (normText message) = false)
    (h10 : history_reflects message history = false) :
    generate_reply message history now = some (defaultReply message) := by
  simp only [generate_reply, h2, h3, h4, h5, h6, h7, h8, h9,
    Bool.false_eq_true, if_false]
  cases history with
  | none => rfl
  | some h =>
    unfold history_reflects at h10
    dsimp only at h10 ⊢
    cases hE : h.isEmpty
    · rw [hE] at h10
      simp only [Bool.false_eq_true, if_false] at h10
      simp only [hE, Bool.false_eq_true, if_false]
      cases hLU : lastUser h with
      | none => rfl
      | some lu =>
        rw [hLU] at h10
        have h10x : (!lu.isEmpty && lu != message) = false := h10
        simp [h10x]
    · simp [hE]

/-- C7, witness: for the message "ok" with no history, the reply is the
default acknowledgment. -/
theorem C7_default_witness :
    generate_reply (lit "ok") none (lit "t") = some (defaultReply (lit "ok")) :=
  C7_default (lit "ok") none (lit "t") (by decide) (by decide) (by decide)
    (by decide) (by decide) (by decide) (by decide) (by decide) (by decide)

/-- C9: in the history-reflection branch the new message is echoed verbatim
and in full — the reply is the follow-up header (which truncates only the
prior message, at 120 characters) followed by the entire current message,
however long it is. -/
theorem C9_message_echoed_in_full (message : List Char) (h : List ChatMessage)
    (now lu : List Char)
    (h2 : rule_greet (normText message) = false)
    (h3 : rule_identity (normText message) = false)
    (h4 : rule_help (normText message) = false)
    (h5 : rule_time (normText message) = false)
    (h6 : rule_summarize (normText message) = false)
    (h7 : rule_rewrite (normText message) = false)
    (h8 : rule_haiku (normText message) = false)
    (h9 : rule_joke (normText message) = false)
    (hlu : lastUser h = some lu)
    (hne : lu.isEmpty = false)
    (hdiff : lu ≠ message) :
    generate_reply message (some h) now = some (followUpHeader lu ++ message) := by
  have hE : h.isEmpty = false := by
    cases h
    · simp [lastUser] at hlu
    · rfl
  simp [generate_reply, followUpReply, h2, h3, h4, h5, h6, h7, h8, h9, hE,
    hlu, hne, hdiff]

/-- C9, witness: a 200-character message is echoed in full after the
follow-up header (no 120- or 140-character truncation applies to it). -/
theorem C9_message_echoed_in_full_witness :
    generate_reply (List.replicate 200 'z')
        (some [⟨Role.user, lit "foo"⟩]) (lit "t") =
      some (followUpHeader (lit "foo") ++ List.replicate 200 'z') :=
  C9_message_echoed_in_full (List.replicate 200 'z') [⟨Role.user, lit "foo"⟩]
    (lit "t") (lit "foo") (by decide) (by decide) (by decide) (by decide)
    (by decide) (by decide) (by decide) (by decide) (by decide) (by decide)
    (by decide)

/-- C10: every reply of `generate_reply` is a non-empty string: each branch
of the rule table, the default branch on the empty message included,
returns a string with at least one character. -/
theorem C10_reply_nonempty (message : List Char)
    (history : Option (List ChatMessage)) (now : List Char) :
    ∃ r, generate_reply message history now = some r ∧ r ≠ [] :=
  gen_some_ne_nil message history now

/-- A Python exception as the `/test` handler distinguishes them:
`ImportError` (caught by its own clause) or any other exception carrying
its `str(e)` text. -/
inductive PyExc where
  | importError
  | other (msg : List Char)
deriving DecidableEq

/-- The optionally-present `db` handle of the `database` module: its `name`
attribute when it has one, and the outcome of `list_collection_names()`
(`Except.error` carries the raised exception's `str(e)` text). -/
structure DbHandle where
  name : Option (List Char)
  listCollections : Except (List Char) (List (List Char))

/-- The external world the `/test` handler probes: the outcome of
`from database import db` (which may raise, or yield `db = None`), and the
`DATABASE_URL` / `DATABASE_NAME` environment variables (`none` when unset;
an empty value is falsy in Python). -/
structure Env where
  importDb : Except PyExc (Option DbHandle)
  databaseUrl : Option (List Char)
  databaseName : Option (List Char)

/-- The JSON object the `/test` handler returns (`src/main.py` lines
109-116); `database_url` and `database_name` start as `None`, hence
`Option`. -/
structure TestResponse where
  backend : List Char
  database : List Char
  database_url : Option (List Char)
  database_name : Option (List Char)
  connection_status : List Char
  collections : List (List Char)
deriving DecidableEq

/-- Python truthiness of `os.getenv(...)`: set and non-empty. -/
def envTruthy : Option (List Char) → Bool
  | none => false
  | some v => !v.isEmpty

/-- `test_database` (`src/main.py` lines 106-148).  Every fallible step is
an `Except` value of `env`; the `try`/`except` structure of the handler is
the explicit matching below, and a propagated exception would be
`Except.error` — the handler always ends in `Except.ok`. -/
def test_database (env : Env) : Except PyExc TestResponse :=
  let r0 : TestResponse :=
    ⟨lit "✅ Running", lit "❌ Not Available", none, none,
      lit "Not Connected", []⟩
  let r1 : TestResponse :=
    match env.importDb with
    | Except.error PyExc.importError =>
      { r0 with
        database := lit "❌ Database module not found (run enable-database first)" }
    | Except.error (PyExc.other e) =>
      { r0 with database := lit "❌ Error: " ++ e.take 50 }
    | Except.ok none =>
      { r0 with database := lit "⚠️  Available but not initialized" }
    | Except.ok (some db) =>
      let r2 : TestResponse :=
        { r0 with
          database := lit "✅ Available",
          database_url := some (lit "✅ Configured"),
          database_name := some (match db.name with
            | some n => n
            | none => lit "✅ Connected"),
          connection_status := lit "Connected" }
      match db.listCollections with
      | Except.ok cols =>
        { r2 with
          collections := cols.take 10,
          database := lit "✅ Connected & Working" }
      | Except.error e =>
        { r2 with database := lit "⚠️  Connected but Error: " ++ e.take 50 }
  Except.ok
    { r1 with
      database_url :=
        some (if envTruthy env.databaseUrl then lit "✅ Set" else lit "❌ Not Set"),
      database_name :=
        some (if envTruthy env.databaseName then lit "✅ Set" else lit "❌ Not Set") }

/-- C8: the `/test` handler never propagates an exception — for every
environment (module missing, import raising, `db = None`, listing raising)
it returns `Except.ok`; and each failure is rendered as a status string
with the exception text truncated to 50 characters (shown here for the
import-failure and listing-failure cases, at arbitrary exception texts). -/
theorem C8_test_never_raises (env : Env) (e cols : List Char)
    (nm : Option (List Char)) :
    (∃ r, test_database env = Except.ok r) ∧
    test_database ⟨Except.error (PyExc.other e), none, none⟩ =
      Except.ok ⟨lit "✅ Running", lit "❌ Error: " ++ e.take 50,
        some (lit "❌ Not Set"), some (lit "❌ Not Set"),
        lit "Not Connected", []⟩ ∧
    test_database ⟨Except.ok (some ⟨nm, Except.error cols⟩), none, none⟩ =
      Except.ok ⟨lit "✅ Running", lit "⚠️  Connected but Error: " ++ cols.take 50,
        some (lit "❌ Not Set"), some (lit "❌ Not Set"),
        lit "Connected", []⟩ ∧
    test_database ⟨Except.error PyExc.importError, none, none⟩ =
      Except.ok ⟨lit "✅ Running",
        lit "❌ Database module not found (run enable-database first)",
        some (lit "❌ Not Set"), some (lit "❌ Not Set"),
        lit "Not Connected", []⟩ :=
  ⟨⟨_, rfl⟩, rfl, rfl, rfl⟩
